import Mathlib

/-!
Verification development for the `unittools` repository.

The repository contains two Python modules that each implement a unit-aware
value type:

* `units.py` — class `UnitVar` (magnitude + optional unit tag), the conversion
  table `CONVERSION_FUNCTIONS`, the coercion engine `__op__`/`_coerce_with`/
  `_conversion_method`, and the symbolic `Expression` fallback;
* `unittools.py` — an independent class `UnitVar` (magnitude + mandatory unit
  tag) over the identical table `CONVERTER_MAP`, with `_transform`/`_convert`
  and per-operator methods, but no `Expression` type.

Modelling choices (uniform across the file):
* magnitudes are rationals (`Rat`): every numeric literal in the source is a
  decimal literal, which is exact as a rational; Python float arithmetic is
  thereby modelled exactly, and equalities proved here are exact (hence hold a
  fortiori "within floating-point tolerance");
* the unit tags are the closed enumeration of the seven built-in unit strings
  (`'mil' 'in' 'mm' 'cm' 'degC' 'degF' 'degK'`); `units.py` additionally uses
  Python `None` as the tag of a unitless value, modelled by `Option`;
* Python division by a numeric zero raises `ZeroDivisionError` (it never
  yields an IEEE infinity); fallible division is therefore modelled with an
  explicit zero test whose error branch stands for that exception;
* Python strings are sequences of characters; the slice `s[1:-1]` used by
  `Expression.__repr__` is modelled on the underlying character list.
-/

namespace Units

/-- The seven built-in unit strings of `units.py` (constants `MIL`, `IN`,
`MM`, `CM`, `DEG_C`, `DEG_F`, `DEG_K`).  `inch` stands for the string
`'in'` (`in` is a Lean keyword). -/
inductive UnitName where
  | mil | inch | mm | cm | degC | degF | degK
deriving DecidableEq, Fintype

/-- The four operator functions imported from the `operator` module and used
as operator tags (`div`, `mul`, `add`, `sub`). -/
inductive Op where
  | add | sub | mul | div
deriving DecidableEq

/-- `FORMATTED_OPERATORS` (units.py lines 30-35): display symbol of each
operator tag. -/
def FORMATTED_OPERATORS : Op → String
  | .div => "/"
  | .mul => "*"
  | .add => "+"
  | .sub => "-"

/-- `CONVERSION_FUNCTIONS` (units.py lines 48-92): the nested dict mapping a
source unit to a dict from target unit to conversion function.
`CONVERSION_FUNCTIONS src tgt = some f` corresponds to the Python entry
`CONVERSION_FUNCTIONS[src][tgt] = f`; `none` corresponds to a `KeyError`.
Every decimal literal is read as the exact rational it denotes. -/
def CONVERSION_FUNCTIONS : UnitName → UnitName → Option (Rat → Rat)
  -- conversion from mils
  | .mil, .inch => some (fun x => x * 0.001)
  | .mil, .mm   => some (fun x => x * 0.0254)
  | .mil, .cm   => some (fun x => x * 0.00254)
  | .mil, .mil  => some (fun x => x * 1.0)
  -- conversion from inches
  | .inch, .mil => some (fun x => x * 1000)
  | .inch, .mm  => some (fun x => x * 25.4)
  | .inch, .cm  => some (fun x => x * 2.54)
  | .inch, .inch => some (fun x => x * 1.0)
  -- conversion from millimeters
  | .mm, .mil  => some (fun x => x * (1 / 0.0254))
  | .mm, .inch => some (fun x => x * (1 / 25.4))
  | .mm, .cm   => some (fun x => x * 0.1)
  | .mm, .mm   => some (fun x => x * 1.0)
  -- conversion from centimeters
  | .cm, .mil  => some (fun x => x * (1 / 0.00254))
  | .cm, .inch => some (fun x => x * (1 / 2.54))
  | .cm, .mm   => some (fun x => x * 10)
  | .cm, .cm   => some (fun x => x * 1.0)
  -- conversion from degrees Celsius
  | .degC, .degF => some (fun x => x * (9.0 / 5.0) + 32.0)
  | .degC, .degK => some (fun x => x + 273.15)
  -- conversion from degrees Fahrenheit
  | .degF, .degC => some (fun x => (x - 32.0) * (5.0 / 9.0))
  | .degF, .degK => some (fun x => (x - 32.0) * (5.0 / 9.0) + 273.15)
  -- conversion from degrees Kelvin
  | .degK, .degC => some (fun x => x - 273.15)
  | .degK, .degF => some (fun x => (x - 273.15) * (9.0 / 5.0) + 32.0)
  | _, _ => none

/-- The two disjoint unit families named by the spec (§3); the source encodes
them only implicitly through which table entries exist. -/
inductive Family where
  | length | temperature
deriving DecidableEq

/-- Family of each built-in unit: {mil, in, mm, cm} are lengths, the three
degree units are temperatures. -/
def family : UnitName → Family
  | .mil | .inch | .mm | .cm => .length
  | .degC | .degF | .degK => .temperature

/-- `class UnitVar` (units.py lines 101-109): a numeric magnitude paired with
an optional unit tag (`unit = None` for a bare/unitless value). -/
structure UnitVar where
  value : Rat
  unit : Option UnitName
deriving DecidableEq

/-- `UnitVar._conversion_method(from_, to)` (units.py lines 190-196):
identity when the two tags are equal (including both `None`), otherwise the
table lookup `CONVERSION_FUNCTIONS[to][from_]` (so the returned function
converts a magnitude *from* the unit `to` *into* the unit `from_`, matching
its use in `_coerce_with`); a `KeyError` — outer or inner, including a `None`
tag, which is never a table key — yields `None`. -/
def conversion_method (from_ to_ : Option UnitName) : Option (Rat → Rat) :=
  if from_ = to_ then some (fun x => x)
  else
    match to_, from_ with
    | some t, some f => CONVERSION_FUNCTIONS t f
    | _, _ => none

/-- `UnitVar._coerce_with(other)` (units.py lines 182-188): on success,
the triple `(self.value, converter(other.value), self.unit)`; on failure the
raised `IncompatibleUnits` carries `other_is_compatible`, the truthiness of
the reverse lookup, modelled as the `Bool` error payload. -/
def coerce_with (self other : UnitVar) : Except Bool (Rat × Rat × Option UnitName) :=
  match conversion_method self.unit other.unit with
  | some converter => .ok (self.value, converter other.value, self.unit)
  | none => .error (conversion_method other.unit self.unit).isSome

/-- Application of an operator tag, as `op(value, other_value)` in `__op__`.
(Only `add` and `sub` are ever dispatched through `__op__` in the source;
the rational `/` is total with junk value `0` at `0`, and is never reached
by the theorems below for a zero divisor.) -/
def applyOp : Op → Rat → Rat → Rat
  | .add, a, b => a + b
  | .sub, a, b => a - b
  | .mul, a, b => a * b
  | .div, a, b => a / b

/-- The `ast` trees stored in `Expression` objects (units.py lines 201-207):
a node is the list `[operator, value1, value2]` whose values are `UnitVar`s
or nested lists of the same shape. -/
inductive Operand where
  | val (v : UnitVar)
  | node (op : Op) (l r : Operand)
deriving DecidableEq

/-- Result of a binary operator method of `units.py`: a concrete `UnitVar`,
a symbolic `Expression` (identified with its `ast`), the `NotImplemented`
sentinel, or a `ZeroDivisionError` raised by Python's numeric division. -/
inductive OpResult where
  | value (v : UnitVar)
  | expr (ast : Operand)
  | notImplemented
  | zeroDivisionError
deriving DecidableEq

/-- `UnitVar.__op__(op, other, reverse)` (units.py lines 162-180).  The raw
Python operand has already been wrapped as a `UnitVar` (a bare number `n`
arrives as `⟨n, none⟩`); `reverse = true` is the `__radd__`/`__rsub__`
path. -/
def op__ (op : Op) (self other : UnitVar) (reverse : Bool) : OpResult :=
  match coerce_with self other with
  | .ok (value, other_value, unit) =>
      if reverse then .value ⟨applyOp op other_value value, unit⟩
      else .value ⟨applyOp op value other_value, unit⟩
  | .error other_is_compatible =>
      if other_is_compatible then .notImplemented
      else if reverse then .expr (.node op (.val other) (.val self))
      else .expr (.node op (.val self) (.val other))

/-- `UnitVar.__mul__(other)` (units.py lines 125-131) for a `UnitVar`
operand: a unitless operand is unwrapped to its magnitude and multiplied in
(result keeps `self`'s unit); a unit-tagged operand yields
`Expression([mul, self, other])` with the operands untouched — the
conversion table is never consulted. -/
def mul (self other : UnitVar) : OpResult :=
  match other.unit with
  | none => .value ⟨self.value * other.value, self.unit⟩
  | some _ => .expr (.node .mul (.val self) (.val other))

/-- `UnitVar.__div__(other)` (units.py lines 132-138) for a `UnitVar`
operand: a unit-tagged operand yields `Expression([div, self, other])`;
a unitless operand (or raw number) is divided in, where Python raises
`ZeroDivisionError` if the divisor is zero. -/
def div (self other : UnitVar) : OpResult :=
  match other.unit with
  | some _ => .expr (.node .div (.val self) (.val other))
  | none =>
      if other.value = 0 then .zeroDivisionError
      else .value ⟨self.value / other.value, self.unit⟩

/-- Rendering of a magnitude, as Python's `str` inside
`"%s %s" % (self.value, self.unit)`.  All magnitudes rendered by the
theorems below are integers, for which Python prints the plain integer
numeral, as here; a non-integral rational is shown as `num/den`. -/
def magStr (q : Rat) : String :=
  if q.den = 1 then toString q.num
  else toString q.num ++ "/" ++ toString q.den

/-- The Python string of each unit constant. -/
def unitStr : UnitName → String
  | .mil => "mil"
  | .inch => "in"
  | .mm => "mm"
  | .cm => "cm"
  | .degC => "degC"
  | .degF => "degF"
  | .degK => "degK"

/-- `UnitVar.__repr__` (units.py lines 111-114): the magnitude alone when
unitless, otherwise `"%s %s" % (value, unit)`. -/
def UnitVar.repr (v : UnitVar) : String :=
  match v.unit with
  | none => magStr v.value
  | some u => magStr v.value ++ " " ++ unitStr u

/-- `Expression.format(tree)` (units.py lines 212-217): a non-list leaf is
`str`-ed; a node becomes `"(%s %s %s)"` of the two recursively formatted
children around the operator symbol. -/
def Operand.format : Operand → String
  | .val v => v.repr
  | .node op l r =>
      "(" ++ l.format ++ " " ++ FORMATTED_OPERATORS op ++ " " ++ r.format ++ ")"

/-- Python's character slice `s[1:-1]`, modelled on the character list. -/
def slice1m1 (s : String) : String := ⟨(s.data.drop 1).dropLast⟩

/-- `Expression.__repr__` (units.py lines 209-210):
`self.format(self.ast)[1:-1]` — the formatted tree with its first and last
characters (the outermost parentheses) removed. -/
def Expression.repr (ast : Operand) : String := slice1m1 ast.format

end Units

namespace Unittools

open Units (UnitName)

/-- `CONVERTER_MAP` (unittools.py lines 30-78): textually the same nested
from-to dict of conversion lambdas as `units.py`'s `CONVERSION_FUNCTIONS`.
`CONVERTER_MAP src tgt = some f` corresponds to `CONVERTER_MAP[src][tgt]`. -/
def CONVERTER_MAP : UnitName → UnitName → Option (Rat → Rat)
  -- conversion from mils
  | .mil, .inch => some (fun x => x * 0.001)
  | .mil, .mm   => some (fun x => x * 0.0254)
  | .mil, .cm   => some (fun x => x * 0.00254)
  | .mil, .mil  => some (fun x => x * 1.0)
  -- conversion from inches
  | .inch, .mil => some (fun x => x * 1000)
  | .inch, .mm  => some (fun x => x * 25.4)
  | .inch, .cm  => some (fun x => x * 2.54)
  | .inch, .inch => some (fun x => x * 1.0)
  -- conversion from millimeters
  | .mm, .mil  => some (fun x => x * (1 / 0.0254))
  | .mm, .inch => some (fun x => x * (1 / 25.4))
  | .mm, .cm   => some (fun x => x * 0.1)
  | .mm, .mm   => some (fun x => x * 1.0)
  -- conversion from centimeters
  | .cm, .mil  => some (fun x => x * (1 / 0.00254))
  | .cm, .inch => some (fun x => x * (1 / 2.54))
  | .cm, .mm   => some (fun x => x * 10)
  | .cm, .cm   => some (fun x => x * 1.0)
  -- conversion from degrees Celsius
  | .degC, .degF => some (fun x => x * (9.0 / 5.0) + 32.0)
  | .degC, .degK => some (fun x => x + 273.15)
  -- conversion from degrees Fahrenheit
  | .degF, .degC => some (fun x => (x - 32.0) * (5.0 / 9.0))
  | .degF, .degK => some (fun x => (x - 32.0) * (5.0 / 9.0) + 273.15)
  -- conversion from degrees Kelvin
  | .degK, .degC => some (fun x => x - 273.15)
  | .degK, .degF => some (fun x => (x - 273.15) * (9.0 / 5.0) + 32.0)
  | _, _ => none

/-- `__get_converter(from_unit, to_unit)` (unittools.py lines 80-97): the
table lookup; a missing outer or inner key raises `ConverterMapException`,
modelled as `none`. -/
def get_converter (from_unit to_unit : UnitName) : Option (Rat → Rat) :=
  CONVERTER_MAP from_unit to_unit

/-- `class UnitVar` of unittools.py (lines 115-229): a float magnitude and a
(mandatory) unit tag; the numeric-value constructor path stores both
directly. -/
structure UnitVar where
  value : Rat
  unit : UnitName
deriving DecidableEq

/-- `UnitVar._transform(to_unit)` (unittools.py lines 219-229, reading the
line `if to_unit != self.__unit` with its missing colon restored): when the
target differs, look up a converter from the current unit to `to_unit`,
replace the magnitude by its image and the unit by `to_unit`; otherwise the
instance is returned unchanged.  `none` models the propagated
`ConverterMapException`. -/
def transform (self : UnitVar) (to_unit : UnitName) : Option UnitVar :=
  if to_unit ≠ self.unit then
    (get_converter self.unit to_unit).map (fun converter => ⟨converter self.value, to_unit⟩)
  else
    some self

/-- `UnitVar._convert(to_unit)` = `UnitVar(self, to_unit)` (unittools.py
lines 257-261 and the copy-constructor branch of `__init__`, lines 179-184,
reading the `NameError` line `self.__unit = __unit` as storing the `unit`
argument): the new instance starts with the *old* magnitude tagged with the
*new* unit, and is then `_transform`-ed to the *old* unit — i.e. the
converter is applied in the direction opposite to the documented one, and
the result carries the source's original unit. -/
def convert (self : UnitVar) (to_unit : UnitName) : Option UnitVar :=
  transform ⟨self.value, to_unit⟩ self.unit

/-- The operand of a binary operator method of unittools.py that is handled
at all: a bare number (`_is_number`) or another `UnitVar` (`_is_UnitVar`);
any other operand makes every method return `None`, which no claim
exercises. -/
inductive Arg where
  | num (x : Rat)
  | uv (v : UnitVar)

/-- `UnitVar.__add__(y)` (unittools.py lines 295-302): a number is added to
the magnitude; a `UnitVar` is `_convert`-ed to `self`'s unit and `self`'s
magnitude is added into the converted copy (`z.__value += self.__value`),
the result keeping the converted copy's unit.  `none` models a propagated
conversion failure. -/
def add (self : UnitVar) : Arg → Option UnitVar
  | .num y => some ⟨self.value + y, self.unit⟩
  | .uv y => (convert y self.unit).map (fun z => ⟨z.value + self.value, z.unit⟩)

/-- `UnitVar.__radd__(x)` (unittools.py lines 304-308) for a numeric `x`:
`UnitVar(x + self.value, self.__unit)`. -/
def radd (self : UnitVar) (x : Rat) : UnitVar :=
  ⟨x + self.value, self.unit⟩

/-- `UnitVar.__sub__(y)` (unittools.py lines 320-327): a number is
subtracted from the magnitude; for a `UnitVar` the *converted copy* has
`self`'s magnitude subtracted from it (`z.__value -= self.__value`), i.e.
the operand order of the documented `UnitVar_A.value - UnitVar_B.value` is
reversed, and the result keeps the converted copy's unit. -/
def sub (self : UnitVar) : Arg → Option UnitVar
  | .num y => some ⟨self.value - y, self.unit⟩
  | .uv y => (convert y self.unit).map (fun z => ⟨z.value - self.value, z.unit⟩)

/-- `UnitVar.__rsub__(x)` (unittools.py lines 329-333) for a numeric `x`:
`UnitVar(x - self.value, self.__unit)`. -/
def rsub (self : UnitVar) (x : Rat) : UnitVar :=
  ⟨x - self.value, self.unit⟩

/-- `UnitVar.__mul__(y)` (unittools.py lines 345-349): a number scales the
magnitude; any other operand — including another `UnitVar` — falls through
and returns `None`. -/
def mul (self : UnitVar) : Arg → Option UnitVar
  | .num y => some ⟨self.value * y, self.unit⟩
  | .uv _ => none

/-- Result of a division method of unittools.py: a `UnitVar`, or a raised
`ZeroDivisionError`. -/
inductive DivResult where
  | ok (v : UnitVar)
  | zeroDivisionError
deriving DecidableEq

/-- `UnitVar.__div__(y)` (unittools.py lines 364-372) for a numeric `y`:
an explicit guard raises `ZeroDivisionError('Cannot divide UnitVar by a
constant value of zero')` when `y == 0`, otherwise the magnitude is divided
by `y`. -/
def div (self : UnitVar) (y : Rat) : DivResult :=
  if y = 0 then .zeroDivisionError
  else .ok ⟨self.value / y, self.unit⟩

/-- `UnitVar.__rdiv__(x)` (unittools.py lines 374-381) for a numeric `x`:
the explicit guard tests `0 == x` — the bare *numerator* — although its
message reads 'Cannot divide constant by a UnitVar with a magnitude of
zero'; past the guard, Python's own division `x / self.__value` raises the
built-in `ZeroDivisionError` whenever the magnitude is zero (it never
produces an infinity), modelled by the second test. -/
def rdiv (self : UnitVar) (x : Rat) : DivResult :=
  if x = 0 then .zeroDivisionError
  else if self.value = 0 then .zeroDivisionError
  else .ok ⟨x / self.value, self.unit⟩

end Unittools

/-- Existence of an entry in `_conversion_method` is symmetric in its two
arguments (including the `None` tag), because the shipped table is
symmetric in existence. -/
theorem conversion_method_isSome_symm :
    ∀ x y : Option Units.UnitName,
      (Units.conversion_method x y).isSome = (Units.conversion_method y x).isSome := by
  decide

/-- Between units of different families, `_conversion_method` finds no
converter. -/
theorem cross_family_conversion_none :
    ∀ u v : Units.UnitName, Units.family u ≠ Units.family v →
      Units.conversion_method (some u) (some v) = none := by
  intro u v h
  cases u <;> cases v <;> first | exact absurd rfl h | rfl

/-- Python's slice `[1:-1]` applied to a string of the shape `( … )` strips
exactly the two parentheses. -/
theorem slice1m1_paren (s : String) : Units.slice1m1 ("(" ++ s ++ ")") = s := by
  cases s with
  | mk data =>
    show Units.slice1m1 ⟨('(' :: data) ++ [')']⟩ = ⟨data⟩
    simp [Units.slice1m1]

/-- General cross-unit behaviour of the coercion engine of `units.py`: with
two distinct unit tags and a table entry from `b`'s unit to `a`'s unit, `+`
and `-` convert `b`'s magnitude with that entry, combine in the operand
order given, and tag the result with `a`'s unit. -/
theorem cross_unit_addsub_resolves :
    ∀ (a b : Units.UnitVar) (u v : Units.UnitName) (f : Rat → Rat),
      a.unit = some u → b.unit = some v → u ≠ v →
      Units.CONVERSION_FUNCTIONS v u = some f →
        Units.op__ .add a b false = .value ⟨a.value + f b.value, some u⟩
      ∧ Units.op__ .sub a b false = .value ⟨a.value - f b.value, some u⟩ := by
  intro a b u v f ha hb huv hf
  have hm : Units.conversion_method (some u) (some v) = some f := by
    simp [Units.conversion_method, huv, hf]
  constructor <;> simp [Units.op__, Units.coerce_with, ha, hb, hm, Units.applyOp]

/-- Claim C1: for a unit-tagged Value `v` and bare number `n`, `n op v` and
`v op n` (`op` in {+,-}) should resolve numerically to a Value carrying
`v`'s unit, with operand order honoured.  Evaluation at the inputs
`(2 mil) + 5`, `5 + (2 mil)` and `5 - (2 mil)`: `units.py`'s coercion
engine (which receives the bare number wrapped as a unitless `UnitVar`)
instead returns a symbolic Expression in each case, because
`_conversion_method` has no table row for the `None` tag; `unittools.py`'s
`__radd__`/`__rsub__` return `7 mil` and `3 mil` exactly as the claim
states. -/
theorem C1_bare_number_addsub :
    Units.op__ .add ⟨2, some .mil⟩ ⟨5, none⟩ false
      = .expr (.node .add (.val ⟨2, some .mil⟩) (.val ⟨5, none⟩))
  ∧ Units.op__ .add ⟨2, some .mil⟩ ⟨5, none⟩ true
      = .expr (.node .add (.val ⟨5, none⟩) (.val ⟨2, some .mil⟩))
  ∧ Units.op__ .sub ⟨2, some .mil⟩ ⟨5, none⟩ true
      = .expr (.node .sub (.val ⟨5, none⟩) (.val ⟨2, some .mil⟩))
  ∧ Unittools.radd ⟨2, .mil⟩ 5 = ⟨7, .mil⟩
  ∧ Unittools.rsub ⟨2, .mil⟩ 5 = ⟨3, .mil⟩ := by
  refine ⟨rfl, rfl, rfl, ?_, ?_⟩ <;> norm_num [Unittools.radd, Unittools.rsub]

/-- Claim C2 (counterexample to the rendering clause): `2 cm * 3 cm` does
yield a symbolic Expression in `units.py`, but its `repr` is the string
`2 cm * 3 cm`, not `(2 cm * 3 cm)` (the `[1:-1]` slice in
`Expression.__repr__` strips the outermost parentheses); and in
`unittools.py` the product of two `UnitVar`s is `None`, not an
Expression. -/
theorem C2_counterexample_mul_repr :
    Units.mul ⟨2, some .cm⟩ ⟨3, some .cm⟩
      = .expr (.node .mul (.val ⟨2, some .cm⟩) (.val ⟨3, some .cm⟩))
  ∧ Units.Expression.repr (.node .mul (.val ⟨2, some .cm⟩) (.val ⟨3, some .cm⟩))
      ≠ "(2 cm * 3 cm)"
  ∧ Unittools.mul ⟨2, .cm⟩ (.uv ⟨3, .cm⟩) = none :=
  ⟨rfl, by decide, rfl⟩

/-- Claim C2 as amended: in `units.py`, `*` and `/` on two unit-tagged
Values never resolve numerically and never consult the conversion table —
they always return the symbolic Expression holding the two unconverted
operands — and the `2 cm * 3 cm` expression formats as `(2 cm * 3 cm)`
while its `repr` (the outer parentheses stripped) is `2 cm * 3 cm`; in
`unittools.py` the product of two `UnitVar`s is `None`. -/
theorem C2_tagged_mul_div_symbolic :
    (∀ (a b : Units.UnitVar) (u v : Units.UnitName),
        a.unit = some u → b.unit = some v →
          Units.mul a b = .expr (.node .mul (.val a) (.val b))
        ∧ Units.div a b = .expr (.node .div (.val a) (.val b)))
  ∧ Units.Operand.format (.node .mul (.val ⟨2, some .cm⟩) (.val ⟨3, some .cm⟩))
      = "(2 cm * 3 cm)"
  ∧ Units.Expression.repr (.node .mul (.val ⟨2, some .cm⟩) (.val ⟨3, some .cm⟩))
      = "2 cm * 3 cm"
  ∧ ∀ (a b : Unittools.UnitVar), Unittools.mul a (.uv b) = none := by
  refine ⟨?_, rfl, rfl, fun a b => rfl⟩
  intro a b u v ha hb
  constructor <;> simp [Units.mul, Units.div, hb]

/-- Witness for `C2_tagged_mul_div_symbolic` at `a = 2 cm`, `b = 3 cm`. -/
theorem C2_tagged_mul_div_symbolic_witness :
    Units.mul ⟨2, some .cm⟩ ⟨3, some .cm⟩
      = .expr (.node .mul (.val ⟨2, some .cm⟩) (.val ⟨3, some .cm⟩))
  ∧ Units.div ⟨2, some .cm⟩ ⟨3, some .cm⟩
      = .expr (.node .div (.val ⟨2, some .cm⟩) (.val ⟨3, some .cm⟩)) :=
  C2_tagged_mul_div_symbolic.1 ⟨2, some .cm⟩ ⟨3, some .cm⟩ .cm .cm rfl rfl

/-- Claim C3: cross-unit `+`/`-` should convert the right operand into the
left operand's unit, combine in the order given, and carry the left unit.
`units.py` does exactly that: `2 in + 1000 mil = 3 in` and
`1 cm - 1 mm = 0.9 cm`.  `unittools.py` does not: its `_convert` applies
the converter in the wrong direction and tags the copy with the *right*
operand's unit, and its `__sub__` subtracts in reversed order, so
`1 cm - 1 mm` evaluates to `9 mm` (right operand's unit) and
`2 in + 1000 mil` to `1000002 mil` — contradicting unittools.py's own
docstring (lines 140-156). -/
theorem C3_cross_unit_conversion_divergence :
    Units.op__ .add ⟨2, some .inch⟩ ⟨1000, some .mil⟩ false = .value ⟨3, some .inch⟩
  ∧ Units.op__ .sub ⟨1, some .cm⟩ ⟨1, some .mm⟩ false = .value ⟨9 / 10, some .cm⟩
  ∧ Unittools.sub ⟨1, .cm⟩ (.uv ⟨1, .mm⟩) = some ⟨9, .mm⟩
  ∧ Unittools.add ⟨2, .inch⟩ (.uv ⟨1000, .mil⟩) = some ⟨1000002, .mil⟩ := by
  refine ⟨?_, ?_, ?_, ?_⟩
  · simp +decide [Units.op__, Units.coerce_with, Units.conversion_method,
      Units.CONVERSION_FUNCTIONS, Units.applyOp]
    norm_num
  · simp +decide [Units.op__, Units.coerce_with, Units.conversion_method,
      Units.CONVERSION_FUNCTIONS, Units.applyOp]
    norm_num
  · simp +decide [Unittools.sub, Unittools.convert, Unittools.transform,
      Unittools.get_converter, Unittools.CONVERTER_MAP]
    norm_num
  · simp +decide [Unittools.add, Unittools.convert, Unittools.transform,
      Unittools.get_converter, Unittools.CONVERTER_MAP]
    norm_num

/-- Claim C4: for unit-tagged Values of different families (no conversion
in either direction), addition returns a symbolic Expression and no error
escapes (`_coerce_with`'s exception carries a falsy flag and `__op__`
symbolizes); and whenever `_coerce_with` raises, the forward lookup was
empty and the carried flag is exactly the existence of the reverse
(`a.unit` to `b.unit`) conversion. -/
theorem C4_cross_family_expression_and_flag :
    (∀ (a b : Units.UnitVar) (u v : Units.UnitName),
        a.unit = some u → b.unit = some v → Units.family u ≠ Units.family v →
          Units.coerce_with a b = .error false
        ∧ Units.op__ .add a b false = .expr (.node .add (.val a) (.val b))
        ∧ Units.op__ .add a b true = .expr (.node .add (.val b) (.val a)))
  ∧ (∀ (a b : Units.UnitVar) (c : Bool), Units.coerce_with a b = .error c →
        Units.conversion_method a.unit b.unit = none
      ∧ c = (Units.conversion_method b.unit a.unit).isSome) := by
  constructor
  · intro a b u v ha hb hfam
    have h1 : Units.conversion_method (some u) (some v) = none :=
      cross_family_conversion_none u v hfam
    have h2 : Units.conversion_method (some v) (some u) = none :=
      cross_family_conversion_none v u (fun hh => hfam hh.symm)
    refine ⟨?_, ?_, ?_⟩ <;>
      simp [Units.op__, Units.coerce_with, ha, hb, h1, h2]
  · intro a b c h
    cases hm : Units.conversion_method a.unit b.unit with
    | some f => simp [Units.coerce_with, hm] at h
    | none =>
        simp [Units.coerce_with, hm] at h
        exact ⟨rfl, h.symm⟩

/-- Witness for `C4_cross_family_expression_and_flag` at `a = 2 cm`,
`b = 2 degC`. -/
theorem C4_cross_family_expression_and_flag_witness :
    (Units.coerce_with ⟨2, some .cm⟩ ⟨2, some .degC⟩ = .error false
   ∧ Units.op__ .add ⟨2, some .cm⟩ ⟨2, some .degC⟩ false
       = .expr (.node .add (.val ⟨2, some .cm⟩) (.val ⟨2, some .degC⟩))
   ∧ Units.op__ .add ⟨2, some .cm⟩ ⟨2, some .degC⟩ true
       = .expr (.node .add (.val ⟨2, some .degC⟩) (.val ⟨2, some .cm⟩)))
  ∧ (Units.conversion_method (some .cm) (some .degC) = none
   ∧ false = (Units.conversion_method (some .degC) (some .cm)).isSome) :=
  ⟨C4_cross_family_expression_and_flag.1 ⟨2, some .cm⟩ ⟨2, some .degC⟩ .cm .degC
      rfl rfl (by decide),
   C4_cross_family_expression_and_flag.2 ⟨2, some .cm⟩ ⟨2, some .degC⟩ false rfl⟩

/-- Claim C5: dividing a Value by the bare number 0 raises the explicit
division-by-zero error and never yields an infinite magnitude, and a bare
number divided by a Value is likewise signalled for the zero case: in
`unittools.py` `__div__` guards `y == 0` explicitly and `__rdiv__` is
covered by the guard on the constant together with Python's built-in
`ZeroDivisionError` on a zero magnitude; in `units.py` `__div__` the
built-in error is raised by the division itself, and a division only ever
produces a Value when the divisor is nonzero. -/
theorem C5_zero_division_signaled :
    (∀ v : Unittools.UnitVar, Unittools.div v 0 = .zeroDivisionError)
  ∧ (∀ (v : Unittools.UnitVar) (x : Rat), v.value = 0 →
        Unittools.rdiv v x = .zeroDivisionError)
  ∧ (∀ (v w : Units.UnitVar), w.unit = none → w.value = 0 →
        Units.div v w = .zeroDivisionError)
  ∧ (∀ (v w r : Units.UnitVar), Units.div v w = .value r → w.value ≠ 0) := by
  refine ⟨?_, ?_, ?_, ?_⟩
  · intro v; simp [Unittools.div]
  · intro v x h; simp [Unittools.rdiv, h]
  · intro v w hu hz; simp [Units.div, hu, hz]
  · intro v w r h hz
    cases hw : w.unit with
    | some u => simp [Units.div, hw] at h
    | none => simp [Units.div, hw, hz] at h

/-- Witness for `C5_zero_division_signaled` at concrete inputs
`(7 cm) / 0`, `5 / (0 cm)`, and `(4 cm) / 2 = 2 cm`. -/
theorem C5_zero_division_signaled_witness :
    Unittools.div ⟨7, .cm⟩ 0 = .zeroDivisionError
  ∧ Unittools.rdiv ⟨0, .cm⟩ 5 = .zeroDivisionError
  ∧ Units.div ⟨7, some .cm⟩ ⟨0, none⟩ = .zeroDivisionError
  ∧ (2 : Rat) ≠ 0 :=
  ⟨C5_zero_division_signaled.1 ⟨7, .cm⟩,
   C5_zero_division_signaled.2.1 ⟨0, .cm⟩ 5 rfl,
   C5_zero_division_signaled.2.2.1 ⟨7, some .cm⟩ ⟨0, none⟩ rfl rfl,
   C5_zero_division_signaled.2.2.2 ⟨4, some .cm⟩ ⟨2, none⟩ ⟨2, some .cm⟩
     (by norm_num [Units.div])⟩

/-- Claim C6 (counterexample): the conversion tables of both modules have
no identity entry for the temperature units — `CONVERSION_FUNCTIONS` and
`CONVERTER_MAP` map the same-family ordered pair (degC, degC) to nothing
(and likewise degF and degK, covered by `C6_table_population`). -/
theorem C6_counterexample_temperature_identity :
    Units.CONVERSION_FUNCTIONS .degC .degC = none
  ∧ Unittools.CONVERTER_MAP .degC .degC = none :=
  ⟨rfl, rfl⟩

/-- Claim C6 as amended: both tables contain an entry exactly for the
same-family ordered pairs, except that the identity pairs exist only in the
length family — the three temperature identity pairs are absent (identity
conversion is instead handled by the `from_ == to` special case in
`units.py`'s `_conversion_method` and the `to_unit != self.__unit` guard in
`unittools.py`'s `_transform`). -/
theorem C6_table_population :
    ∀ u v : Units.UnitName,
      (Units.CONVERSION_FUNCTIONS u v).isSome
        = (decide (Units.family u = Units.family v)
            && (decide (u ≠ v) || decide (Units.family u = .length)))
    ∧ (Unittools.CONVERTER_MAP u v).isSome
        = (decide (Units.family u = Units.family v)
            && (decide (u ≠ v) || decide (Units.family u = .length))) := by
  decide

/-- Claim C7 (counterexample): the Expression combining `2 mil` and
`3 degC` under addition has `repr` equal to `2 mil + 3 degC` — without the
outermost parentheses the claim requires (`Expression.__repr__` slices them
off with `[1:-1]`). -/
theorem C7_counterexample_outer_parens :
    Units.Expression.repr (.node .add (.val ⟨2, some .mil⟩) (.val ⟨3, some .degC⟩))
      = "2 mil + 3 degC"
  ∧ "2 mil + 3 degC" ≠ "(2 mil + 3 degC)" :=
  ⟨rfl, by decide⟩

/-- Claim C7 as amended: `Expression.format` parenthesizes every node, and
`Expression.__repr__` is the formatted tree with exactly the outermost pair
of parentheses stripped, so every *nested* node keeps its parentheses; at
the nested example, `repr` gives `(2 mil * 3 cm) + 1 in`. -/
theorem C7_repr_parenthesization :
    (∀ (op : Units.Op) (l r : Units.Operand),
        Units.Operand.format (.node op l r)
          = "(" ++ (l.format ++ " " ++ Units.FORMATTED_OPERATORS op ++ " " ++ r.format) ++ ")"
      ∧ Units.Expression.repr (.node op l r)
          = l.format ++ " " ++ Units.FORMATTED_OPERATORS op ++ " " ++ r.format)
  ∧ Units.Expression.repr
      (.node .add (.node .mul (.val ⟨2, some .mil⟩) (.val ⟨3, some .cm⟩)) (.val ⟨1, some .inch⟩))
      = "(2 mil * 3 cm) + 1 in" := by
  refine ⟨?_, rfl⟩
  intro op l r
  have hfmt : Units.Operand.format (.node op l r)
      = "(" ++ (l.format ++ " " ++ Units.FORMATTED_OPERATORS op ++ " " ++ r.format) ++ ")" := by
    simp [Units.Operand.format, String.append_assoc]
  refine ⟨hfmt, ?_⟩
  show Units.slice1m1 _ = _
  rw [hfmt]
  exact slice1m1_paren _

/-- Claim C8: for any ordered pair of units with table entries in both
directions (all same-family pairs except the absent temperature identity
pairs, which have no transform to apply), applying the u-to-v entry and
then the v-to-u entry returns the original magnitude — exactly, in the
rational model of the float constants, hence within any tolerance. -/
theorem C8_conversion_roundtrip :
    ∀ (u v : Units.UnitName) (f g : Rat → Rat),
      Units.CONVERSION_FUNCTIONS u v = some f →
      Units.CONVERSION_FUNCTIONS v u = some g →
      ∀ m : Rat, g (f m) = m := by
  intro u v f g hf hg m
  cases u <;> cases v <;>
    simp only [Units.CONVERSION_FUNCTIONS, Option.some.injEq, reduceCtorEq] at hf hg <;>
    subst hf <;> subst hg <;> norm_num <;> ring

/-- Witness for `C8_conversion_roundtrip` on the pair (mil, cm) at
magnitude 7. -/
theorem C8_conversion_roundtrip_witness :
    Units.CONVERSION_FUNCTIONS .mil .cm = some (fun x => x * 0.00254)
  ∧ Units.CONVERSION_FUNCTIONS .cm .mil = some (fun x => x * (1 / 0.00254))
  ∧ (7 : Rat) * 0.00254 * (1 / 0.00254) = 7 :=
  ⟨rfl, rfl, C8_conversion_roundtrip .mil .cm _ _ rfl rfl 7⟩

/-- Claim C9: identity conversion is exact — `_conversion_method u u`
(units.py) is the bare identity function for every tag `u`, including the
unitless tag, and `_transform` to the current unit (unittools.py) returns
the instance unchanged; no table factor, rounding or float operation is
involved. -/
theorem C9_identity_conversion_exact :
    (∀ (u : Option Units.UnitName) (m : Rat),
        (Units.conversion_method u u).map (fun f => f m) = some m)
  ∧ (∀ v : Unittools.UnitVar, Unittools.transform v v.unit = some v) := by
  constructor
  · intro u m
    simp [Units.conversion_method]
  · intro v
    simp [Unittools.transform]

/-- Claim C10: the shipped table is symmetric in existence — an entry from
`u` to `v` exists exactly when one from `v` to `u` exists — and therefore
`__op__` can never return `NotImplemented` (the reverse-compatible branch
of `_coerce_with` is unreachable): every `+` or `-` on two operands yields
a Value or an Expression. -/
theorem C10_no_notImplemented :
    (∀ u v : Units.UnitName,
        (Units.CONVERSION_FUNCTIONS u v).isSome = (Units.CONVERSION_FUNCTIONS v u).isSome)
  ∧ (∀ (op : Units.Op) (a b : Units.UnitVar) (reverse : Bool),
        Units.op__ op a b reverse ≠ .notImplemented) := by
  refine ⟨by decide, ?_⟩
  intro op a b reverse h
  cases hc : Units.coerce_with a b with
  | ok t =>
      obtain ⟨value, other_value, unit⟩ := t
      cases reverse <;> simp [Units.op__, hc] at h
  | error c =>
      have hcc : c = false := by
        unfold Units.coerce_with at hc
        cases hm : Units.conversion_method a.unit b.unit with
        | some f => rw [hm] at hc; simp at hc
        | none =>
            rw [hm] at hc
            simp only [Except.error.injEq] at hc
            rw [← hc, conversion_method_isSome_symm b.unit a.unit, hm]
            rfl
      subst hcc
      cases reverse <;> simp [Units.op__, hc] at h
